import Mathlib

/-!
Verification of the EV charging knowledge-graph pipeline.

Shallow embedding of the repository code:
  - pages/Rescoring.py : weighted scoring of candidate locations
    (calculate_score, process_municipality, the progress loop);
  - src/overpass_query.py : polygon preparation, retrying fetch,
    node index, feature extraction, density computation;
  - src/ocm_query.py : polygon simplification for OCM and the
    charging-point query with its zero-coordinate filter.

Python dynamic values are modelled by `Val` (null, number, string) with
numbers over ℚ; Python exceptions by `Except PyErr`.  External library
calls (shapely simplify / convex hull, geopandas reprojected area, the
HTTP layer) are parameters of the embedded functions.
-/

set_option autoImplicit false

namespace EVCKG

/-- Python exception kinds that the embedded code can raise or catch. -/
inductive PyErr where
  /-- `TypeError`, e.g. `float * None` or `float * str`. -/
  | typeError
  /-- `ZeroDivisionError` from `1 / 0`. -/
  | zeroDivisionError
  /-- `KeyError` from `d[k]` with `k` absent. -/
  | keyError
  /-- `ValueError`, raised by `_prepare_polygon` / `_simplify_polygon_for_ocm`
  for inputs that are neither Polygon nor MultiPolygon (and by the latter for
  a MultiPolygon whose convex hull is not a Polygon). -/
  | valueError
  /-- `AttributeError` from accessing a missing attribute, e.g.
  `simplified.exterior` when the simplified geometry is a LineString. -/
  | attributeError
  /-- the plain `Exception` raised by `get_charging_points_by_polygon`
  on a non-200 status. -/
  | exception
deriving DecidableEq, Repr

/-- A dynamic Python value as it appears in a Neo4j record / candidate dict:
`null`, a number (Python ints and floats modelled over ℚ), or a string. -/
inductive Val where
  | none : Val
  | num : ℚ → Val
  | str : String → Val
deriving DecidableEq, Repr

/-- Is the value numeric? -/
def Val.isNum : Val → Bool
  | .num _ => true
  | _ => false

/-- Python `w * v` for a float `w` and dynamic `v`:
`TypeError` unless `v` is numeric. -/
def pyMulFloat (w : ℚ) : Val → Except PyErr ℚ
  | .num q => .ok (w * q)
  | _ => .error .typeError

/-- Python `v + 1` for dynamic `v`: `TypeError` unless `v` is numeric. -/
def pyAddOne : Val → Except PyErr ℚ
  | .num q => .ok (q + 1)
  | _ => .error .typeError

/-- Python `1 / q` on numbers: `ZeroDivisionError` at `q = 0`. -/
def pyRecip (q : ℚ) : Except PyErr ℚ :=
  if q = 0 then .error .zeroDivisionError else .ok (1 / q)

/-- Python `v / c` for dynamic `v` and numeric constant `c`:
`TypeError` unless `v` is numeric. -/
def pyDivConst (v : Val) (c : ℚ) : Except PyErr ℚ :=
  match v with
  | .num q => .ok (q / c)
  | _ => .error .typeError

/-- The score expression shared by `calculate_score` (Rescoring.py lines 20-26)
and the inline computation in `process_municipality` (lines 60-66):

`w1*distance + w2*(1/(density+1)) + w3*(home_value/100000)
 + w4*(vehicles/1000) + w5*(population_density/1000)`,

evaluated left to right, the first failing operation raising. -/
def scoreExpr (w1 w2 w3 w4 w5 : ℚ)
    (distance density home_value vehicles pop_density : Val) :
    Except PyErr ℚ := do
  let t1 ← pyMulFloat w1 distance
  let d1 ← pyAddOne density
  let t2 ← pyRecip d1
  let t3 ← pyDivConst home_value 100000
  let t4 ← pyDivConst vehicles 1000
  let t5 ← pyDivConst pop_density 1000
  pure (t1 + w2 * t2 + w3 * t3 + w4 * t4 + w5 * t5)

/-- Embeds `calculate_score` (Rescoring.py lines 18-28): the score expression inside
`try: ... except TypeError: return None`.  `Except.ok Option.none` is
Python `None` (unscoreable); other exceptions propagate. -/
def calculate_score (w1 w2 w3 w4 w5 : ℚ)
    (distance density home_value vehicles pop_density : Val) :
    Except PyErr (Option ℚ) :=
  match scoreExpr w1 w2 w3 w4 w5 distance density home_value vehicles pop_density with
  | .ok q => .ok (some q)
  | .error .typeError => .ok none
  | .error e => .error e

/-- One row returned by the candidate query in `process_municipality`
(Rescoring.py lines 42-54): every alias of the RETURN clause is present as a
key, holding `null` when the stored property is absent. -/
structure Record where
  lat : Val
  lon : Val
  distance_to_nearest : Val
  pc4_density : Val
  home_value : Val
  vehicles : Val
  pop_density : Val
deriving DecidableEq, Repr

/-- The values of a record, as `record.values()` enumerates them. -/
def Record.values (r : Record) : List Val :=
  [r.lat, r.lon, r.distance_to_nearest, r.pc4_density, r.home_value,
   r.vehicles, r.pop_density]

/-- A scored candidate appended to `all_candidates`: `{"lat": .., "lon": ..,
"score": ..}` (Rescoring.py lines 68-70). -/
structure Candidate where
  lat : Val
  lon : Val
  score : ℚ
deriving DecidableEq, Repr

/-- The per-record body of the loop in `process_municipality`
(Rescoring.py lines 56-70): skip the record when `None in record.values()`
(result `Except.ok Option.none`), otherwise compute the score inline —
with no `try`/`except`, so any exception propagates. -/
def processRecord (w1 w2 w3 w4 w5 : ℚ) (r : Record) :
    Except PyErr (Option Candidate) :=
  if Val.none ∈ r.values then .ok none
  else
    match scoreExpr w1 w2 w3 w4 w5 r.distance_to_nearest r.pc4_density
        r.home_value r.vehicles r.pop_density with
    | .ok q => .ok (some ⟨r.lat, r.lon, q⟩)
    | .error e => .error e

/-- The scoring loop of `process_municipality` over the query result:
collects scored candidates in order; an exception aborts the whole loop
(and with it the municipality task). -/
def process_municipality (w1 w2 w3 w4 w5 : ℚ) :
    List Record → List Candidate → Except PyErr (List Candidate)
  | [], acc => .ok acc
  | r :: rest, acc =>
    match processRecord w1 w2 w3 w4 w5 r with
    | .ok none => process_municipality w1 w2 w3 w4 w5 rest acc
    | .ok (some c) => process_municipality w1 w2 w3 w4 w5 rest (acc ++ [c])
    | .error e => .error e

/-! ## Geometry and the polygon encoders (src/overpass_query.py, src/ocm_query.py) -/

/-- A shapely geometry argument.  A `polygon` carries the coordinates of its
exterior ring as `(x, y) = (lon, lat)` pairs.  For a MultiPolygon the code
only ever uses `geometry.convex_hull`, computed by the shapely library:
`multiPolygon` carries the exterior ring of that hull when the hull is a
Polygon, while `multiPolygonDegenerate` is a MultiPolygon whose convex hull
degenerates to a lower-dimensional geometry without an exterior ring
(LineString, Point or empty — e.g. every part collinear, as in
`MultiPolygon([Polygon([(0,0),(1,1),(2,2)])])`).  `other` is any
non-polygon geometry. -/
inductive Geometry where
  | polygon (exterior : List (ℚ × ℚ))
  | multiPolygon (hullExterior : List (ℚ × ℚ))
  | multiPolygonDegenerate
  | other
deriving DecidableEq, Repr

/-- The Overpass `poly` string: `" ".join(str(y) str(x) for x, y in coords)` —
lat, lon order (overpass_query.py lines 21-24). -/
def polyString (coords : List (ℚ × ℚ)) : String :=
  String.intercalate " " (coords.flatMap fun c => [toString c.2, toString c.1])

/-- Embeds `_prepare_polygon` (overpass_query.py lines 8-24).  `simplify` is the
shapely `poly.simplify(tolerance, preserve_topology=True)` call, abstracted as
a function on the exterior-ring coordinates.  It raises `ValueError` on
non-polygon input; on a MultiPolygon whose convex hull is not a Polygon the
type check passes but `simplified.exterior` (line 22) raises
`AttributeError`, since the simplified LineString/Point has no exterior
ring.  No vertex-count check is performed on the simplified result. -/
def _prepare_polygon (simplify : List (ℚ × ℚ) → List (ℚ × ℚ)) :
    Geometry → Except PyErr String
  | .multiPolygon hull => .ok (polyString (simplify hull))
  | .multiPolygonDegenerate => .error .attributeError
  | .polygon ext => .ok (polyString (simplify ext))
  | .other => .error .valueError

/-- Embeds `_simplify_polygon_for_ocm` (ocm_query.py lines 11-20): convex hull for a
multi-polygon, then the `isinstance(geometry, Polygon)` re-check on
lines 16-17 raises `ValueError` both for non-polygon inputs and for a
MultiPolygon whose convex hull is not a Polygon; otherwise the simplified
exterior coordinates are returned as `(lat, lon)` pairs.  No vertex-count
check. -/
def _simplify_polygon_for_ocm (simplify : List (ℚ × ℚ) → List (ℚ × ℚ)) :
    Geometry → Except PyErr (List (ℚ × ℚ))
  | .multiPolygon hull => .ok ((simplify hull).map fun c => (c.2, c.1))
  | .multiPolygonDegenerate => .error .valueError
  | .polygon ext => .ok ((simplify ext).map fun c => (c.2, c.1))
  | .other => .error .valueError

/-! ## The External Feature Fetcher (src/overpass_query.py lines 45-67) -/

/-- The exceptions caught by `_fetch_overpass_data`: any
`requests.exceptions.RequestException` (network error / timeout, or the
`HTTPError` raised by `raise_for_status` on an error status), and the
`ValueError` raised by `resp.json()` on a malformed body. -/
inductive FetchErr where
  | netError
  | httpStatus (code : ℕ)
  | malformedBody
deriving DecidableEq, Repr

/-- A raw Overpass element.  Each field is `Option`-valued: `Option.none`
models the key being absent from the element dict (subscript access then
raises `KeyError`; `.get` access yields a default). -/
structure Element where
  type : Option String
  id : Option ℤ
  lon : Option ℚ
  lat : Option ℚ
  tags : Option (List (String × String))
  nodes : Option (List ℤ)
deriving DecidableEq, Repr

/-- What one HTTP attempt against the Overpass endpoint produces:
an exception of one of the retried kinds, or a parsed JSON body whose
`elements` key may be absent (`data.get("elements", [])`). -/
inductive FetchOutcome where
  | exn (e : FetchErr)
  | ok (elements : Option (List Element))
deriving Repr

/-- Constant `max_retries = 3` (overpass_query.py line 52). -/
def max_retries : ℕ := 3

/-- Constant `backoff = 2` seconds (overpass_query.py line 53). -/
def backoff : ℕ := 2

/-- Result of `_fetch_overpass_data`: the returned element list, the sleep
durations performed (in order), and the number of requests issued. -/
structure FetchResult where
  elements : List Element
  waits : List ℕ
  attempts : ℕ
deriving DecidableEq, Repr

/-- The `for attempt in range(max_retries)` loop of `_fetch_overpass_data`
(overpass_query.py lines 54-67), recursing over the remaining attempt
indices.  On success the parsed `elements` are returned; on an exception the
loop sleeps `backoff * 2 ** attempt` and retries while attempts remain,
returning `[]` once the last attempt fails. -/
def fetchLoop (outcomes : ℕ → FetchOutcome) :
    List ℕ → List ℕ → ℕ → FetchResult
  | [], waitsRev, made => ⟨[], waitsRev.reverse, made⟩
  | attempt :: rest, waitsRev, made =>
    match outcomes attempt with
    | .ok els => ⟨els.getD [], waitsRev.reverse, made + 1⟩
    | .exn _ =>
      if attempt < max_retries - 1 then
        fetchLoop outcomes rest ((backoff * 2 ^ attempt) :: waitsRev) (made + 1)
      else ⟨[], waitsRev.reverse, made + 1⟩

/-- Embeds `_fetch_overpass_data` (overpass_query.py lines 45-67), parameterized by
the outcome the endpoint produces on each attempt.  It never raises: every
path returns a value. -/
def _fetch_overpass_data (outcomes : ℕ → FetchOutcome) : FetchResult :=
  fetchLoop outcomes (List.range max_retries) [] 0

/-! ## The Feature Extractor (src/overpass_query.py lines 70-105) -/

/-- Subscript access `el[k]` on a modelled dict field: `KeyError` when the
key is absent. -/
def getField {α : Type} : Option α → Except PyErr α
  | some a => .ok a
  | none => .error .keyError

/-- The node index built by `_build_node_index`: insertion is at the head so
that, as in a Python dict comprehension, a later node with the same id
overrides an earlier one on lookup. -/
def NodeIndex : Type := List (ℤ × ℚ × ℚ)

/-- Lookup `node_index.get(n)`: the most recently inserted entry for `n`, if any. -/
def lookupNode (idx : NodeIndex) (n : ℤ) : Option (ℚ × ℚ) :=
  (List.find? (fun e => e.1 = n) idx).map fun e => e.2

/-- The dict comprehension of `_build_node_index` (overpass_query.py
lines 70-74): for every element with `el["type"] == "node"`, map
`el["id"]` to `(el["lon"], el["lat"])`.  Subscript access raises `KeyError`
on malformed elements. -/
def buildNodeIndexLoop : List Element → NodeIndex → Except PyErr NodeIndex
  | [], idx => .ok idx
  | el :: rest, idx => do
    let t ← getField el.type
    if t = "node" then
      let i ← getField el.id
      let lo ← getField el.lon
      let la ← getField el.lat
      buildNodeIndexLoop rest ((i, lo, la) :: idx)
    else
      buildNodeIndexLoop rest idx

/-- Embeds `_build_node_index` (overpass_query.py lines 70-74). -/
def _build_node_index (elements : List Element) : Except PyErr NodeIndex :=
  buildNodeIndexLoop elements []

/-- The closed ring of a polygon built from `pts` (shapely `Polygon(pts)`
closes the ring): consecutive vertex pairs, last joined back to first. -/
def ringEdges (pts : List (ℚ × ℚ)) : List ((ℚ × ℚ) × (ℚ × ℚ)) :=
  match pts with
  | [] => []
  | p :: _ => pts.zip (pts.tail ++ [p])

/-- Twice the signed area of the polygon on `pts` (shoelace sum). -/
def polygonSignedArea2 (pts : List (ℚ × ℚ)) : ℚ :=
  (ringEdges pts).foldl
    (fun a e => a + (e.1.1 * e.2.2 - e.2.1 * e.1.2)) 0

/-- Arithmetic mean of the vertices, shapely's effective fallback direction
for degenerate (zero-area) rings. -/
def vertexMean (pts : List (ℚ × ℚ)) : ℚ × ℚ :=
  let n : ℚ := pts.length
  ((pts.foldl (fun a c => a + c.1) 0) / n, (pts.foldl (fun a c => a + c.2) 0) / n)

/-- Models `Polygon(pts).centroid` (shapely): the area-weighted centroid
`Cx = Σ (x_i + x_j)(x_i y_j − x_j y_i) / (3·A2)` over the closed ring, with a
vertex-mean fallback when the ring has zero area. -/
def polygonCentroid (pts : List (ℚ × ℚ)) : ℚ × ℚ :=
  let a2 := polygonSignedArea2 pts
  if a2 = 0 then vertexMean pts
  else
    ((ringEdges pts).foldl
        (fun a e => a + (e.1.1 + e.2.1) * (e.1.1 * e.2.2 - e.2.1 * e.1.2)) 0 / (3 * a2),
     (ringEdges pts).foldl
        (fun a e => a + (e.1.2 + e.2.2) * (e.1.1 * e.2.2 - e.2.1 * e.1.2)) 0 / (3 * a2))

/-- A feature produced by `_extract_features`: the element tags plus a single
representative point (`feat["geometry"]`). -/
structure Feature where
  tags : List (String × String)
  geometry : ℚ × ℚ
deriving DecidableEq, Repr

/-- The loop body of `_extract_features` (overpass_query.py lines 84-105):
skip untagged elements; a node becomes the point `(lon, lat)`; a way resolves
its node references through the index, silently dropping unresolved ones, is
discarded below 3 resolved points and otherwise reduced to the centroid of
`Polygon(pts)`; other types are skipped.  `el["type"]`, `el["lon"]`,
`el["lat"]` are subscript accesses and may raise `KeyError`. -/
def extractLoop (idx : NodeIndex) :
    List Element → List Feature → Except PyErr (List Feature)
  | [], feats => .ok feats
  | el :: rest, feats =>
    if el.tags.getD [] = [] then extractLoop idx rest feats
    else do
      let t ← getField el.type
      let geom? ←
        if t = "node" then do
          let lo ← getField el.lon
          let la ← getField el.lat
          pure (some (lo, la))
        else if t = "way" then
          let pts := (el.nodes.getD []).filterMap (lookupNode idx)
          if 3 ≤ pts.length then pure (some (polygonCentroid pts))
          else pure (none : Option (ℚ × ℚ))
        else pure none
      match geom? with
      | none => extractLoop idx rest feats
      | some g => extractLoop idx rest (feats ++ [⟨el.tags.getD [], g⟩])

/-- Embeds `_extract_features` (overpass_query.py lines 77-105). -/
def _extract_features (elements : List Element) (idx : NodeIndex) :
    Except PyErr (List Feature) :=
  extractLoop idx elements []

/-- The extractor pipeline as used by
`query_overpass_candidates_inside_pc4_area`: build the node index, then
extract features (the `_build_gdf` step only wraps the feature list). -/
def extractPipeline (elements : List Element) : Except PyErr (List Feature) := do
  let idx ← _build_node_index elements
  _extract_features elements idx

/-- Embeds `query_overpass_candidates_inside_pc4_area` (overpass_query.py
lines 120-134): prepare the polygon (may raise `ValueError`), fetch (never
raises; empty list on exhaustion), then index and extract (may raise
`KeyError` on malformed elements). -/
def query_overpass_candidates_inside_pc4_area
    (simplify : List (ℚ × ℚ) → List (ℚ × ℚ)) (g : Geometry)
    (outcomes : ℕ → FetchOutcome) : Except PyErr (List Feature) := do
  let _poly ← _prepare_polygon simplify g
  let elements := (_fetch_overpass_data outcomes).elements
  extractPipeline elements

/-- Embeds `calculate_ev_charging_density` (overpass_query.py lines 137-158).
`projArea` is the projected area in m² computed by the external geopandas
call `geo.to_crs("EPSG:28992").area.iloc[0]`.  Any exception inside the
`try` yields `(None, None)`; otherwise the station count and
`count / area_km2` (or 0 for non-positive area) are returned. -/
def calculate_ev_charging_density
    (simplify : List (ℚ × ℚ) → List (ℚ × ℚ)) (g : Geometry)
    (outcomes : ℕ → FetchOutcome) (projArea : ℚ) : Option ℚ × Option ℚ :=
  match query_overpass_candidates_inside_pc4_area simplify g outcomes with
  | .error _ => (none, none)
  | .ok feats =>
    let num : ℚ := feats.length
    let area_km2 := projArea / 1000000
    let density := if 0 < area_km2 then num / area_km2 else 0
    (some num, some density)

/-! ## The OCM charging-point query (src/ocm_query.py lines 23-92) -/

/-- The `AddressInfo` sub-object of an OCM POI; every field read by the code,
`Option`-valued to model `.get` returning `None` for absent keys. -/
structure AddressInfo where
  Title : Option String
  AddressLine1 : Option String
  Town : Option String
  StateOrProvince : Option String
  CountryID : Option ℤ
  Latitude : Option ℚ
  Longitude : Option ℚ
  RelatedURL : Option String
deriving DecidableEq, Repr

/-- One entry of a POI's `Connections` list. -/
structure Connection where
  PowerKW : Option ℚ
deriving DecidableEq, Repr

/-- A raw OCM POI as the parsed JSON presents it. -/
structure OcmPoint where
  ID : Option ℤ
  AddressInfo : Option AddressInfo
  Connections : Option (List Connection)
  NumberOfPoints : Option ℤ
deriving DecidableEq, Repr

/-- A flattened row of the dataframe built in `get_charging_points_by_polygon`
(ocm_query.py lines 46-64). -/
structure OcmRow where
  id : Option ℤ
  title : Option String
  address : Option String
  town : Option String
  state : Option String
  country : Option ℤ
  latitude : Option ℚ
  longitude : Option ℚ
  url : Option String
  power_kw : List (Option ℚ)
  num_points : Option ℤ
deriving DecidableEq, Repr

/-- The empty dict that `point.get("AddressInfo", \x7b\x7d)` yields when the
key is absent: every subsequent `.get` returns `None`. -/
def emptyAddressInfo : AddressInfo :=
  ⟨none, none, none, none, none, none, none, none⟩

/-- The flattening of one POI (ocm_query.py lines 46-64). -/
def ocmRow (p : OcmPoint) : OcmRow :=
  let a := p.AddressInfo.getD emptyAddressInfo
  ⟨p.ID, a.Title, a.AddressLine1, a.Town, a.StateOrProvince, a.CountryID,
   a.Latitude, a.Longitude, a.RelatedURL,
   (p.Connections.getD []).map Connection.PowerKW, p.NumberOfPoints⟩

/-- The HTTP response to the OCM request: status code and, for the paths the
code takes after the status check, the parsed JSON body. -/
structure OcmResponse where
  status_code : ℕ
  body : List OcmPoint
deriving Repr

/-- Embeds `get_charging_points_by_polygon` (ocm_query.py lines 23-92): simplify and
encode the polygon (may raise `ValueError` on non-polygon input), raise a
plain `Exception` on any status other than 200 — no retry, no degradation —
then flatten the POIs and drop every row with `latitude == 0` or
`longitude == 0` (the pandas filter on line 86; a `None` coordinate compares
unequal to 0 and is kept).  The empty-dataframe branch returns an empty
geodataframe, modelled as the empty list. -/
def get_charging_points_by_polygon
    (simplify : List (ℚ × ℚ) → List (ℚ × ℚ)) (g : Geometry)
    (resp : OcmResponse) : Except PyErr (List OcmRow) := do
  let _coords ← _simplify_polygon_for_ocm simplify g
  if resp.status_code ≠ 200 then .error .exception
  else
    let data := resp.body.map ocmRow
    if data = [] then .ok []
    else .ok (data.filter fun r =>
      decide (r.latitude ≠ some 0) && decide (r.longitude ≠ some 0))

/-! ## The batch rescoring progress loop (pages/Rescoring.py lines 128-141) -/

/-- One iteration of `for future in as_completed(futures)`:
`completed += 1; progress_bar.progress(completed / total)`.  The accumulator
holds the counter and the sequence of values sent to the progress bar. -/
def progressStep {α : Type} (total : ℕ) (acc : ℕ × List ℚ) (_task : α) :
    ℕ × List ℚ :=
  let completed := acc.1 + 1
  (completed, acc.2 ++ [(completed : ℚ) / (total : ℚ)])

/-- The whole progress loop: `total = len(municipalities)`, `completed = 0`,
then one iteration per submitted future — `as_completed` yields every future
of the pool exactly once, in completion order, whether it succeeded or
failed.  `tasks` is the futures in that completion order. -/
def progressLoop {α : Type} (tasks : List α) : ℕ × List ℚ :=
  tasks.foldl (progressStep tasks.length) (0, [])

/-! ## Helper lemmas -/

/-- Bind on a successful `Except` computation. -/
theorem except_bind_ok {ε α β : Type} (a : α) (f : α → Except ε β) :
    (Except.ok a >>= f : Except ε β) = f a := rfl

/-- Bind on a failed `Except` computation. -/
theorem except_bind_error {ε α β : Type} (e : ε) (f : α → Except ε β) :
    (Except.error e >>= f : Except ε β) = Except.error e := rfl

/-! ## C1 — the scoring formula -/

/-- C1: for every candidate with all required numeric inputs present
(distance, area density, home value, vehicles, population density) and
weights w1..w5, the computed score equals
`w1*distance + w2*(1/(density+1)) + w3*(home_value/100000)
 + w4*(vehicles/1000) + w5*(population_density/1000)` — both in
`calculate_score` and in the inline scoring of `process_municipality` —
and in particular, with weights (3, 5, 0.5, 2, 1), candidate X
(2, 4, 300000, 5000, 2000) scores 20.5 and candidate Y
(0.5, 0, 150000, 2000, 500) scores 11.75. -/
theorem C1_score_formula :
    (∀ w1 w2 w3 w4 w5 d dq hv veh pd : ℚ, dq + 1 ≠ 0 →
      calculate_score w1 w2 w3 w4 w5 (.num d) (.num dq) (.num hv) (.num veh) (.num pd)
        = .ok (some (w1 * d + w2 * (1 / (dq + 1)) + w3 * (hv / 100000)
            + w4 * (veh / 1000) + w5 * (pd / 1000))))
  ∧ (∀ w1 w2 w3 w4 w5 la lo d dq hv veh pd : ℚ, dq + 1 ≠ 0 →
      processRecord w1 w2 w3 w4 w5
          ⟨.num la, .num lo, .num d, .num dq, .num hv, .num veh, .num pd⟩
        = .ok (some ⟨.num la, .num lo,
            w1 * d + w2 * (1 / (dq + 1)) + w3 * (hv / 100000)
            + w4 * (veh / 1000) + w5 * (pd / 1000)⟩))
  ∧ calculate_score 3 5 (1/2) 2 1 (.num 2) (.num 4) (.num 300000) (.num 5000) (.num 2000)
      = .ok (some (41/2))
  ∧ calculate_score 3 5 (1/2) 2 1 (.num (1/2)) (.num 0) (.num 150000) (.num 2000) (.num 500)
      = .ok (some (47/4)) := by
  have hgen : ∀ w1 w2 w3 w4 w5 d dq hv veh pd : ℚ, dq + 1 ≠ 0 →
      calculate_score w1 w2 w3 w4 w5 (.num d) (.num dq) (.num hv) (.num veh) (.num pd)
        = .ok (some (w1 * d + w2 * (1 / (dq + 1)) + w3 * (hv / 100000)
            + w4 * (veh / 1000) + w5 * (pd / 1000))) := by
    intro w1 w2 w3 w4 w5 d dq hv veh pd h
    simp [calculate_score, scoreExpr, pyMulFloat, pyAddOne, pyRecip, pyDivConst,
      except_bind_ok, h]
  refine ⟨hgen, ?_, ?_, ?_⟩
  · intro w1 w2 w3 w4 w5 la lo d dq hv veh pd h
    simp [processRecord, Record.values, scoreExpr, pyMulFloat, pyAddOne, pyRecip,
      pyDivConst, except_bind_ok, h]
  · rw [hgen 3 5 (1/2) 2 1 2 4 300000 5000 2000 (by norm_num)]
    norm_num
  · rw [hgen 3 5 (1/2) 2 1 (1/2) 0 150000 2000 500 (by norm_num)]
    norm_num

/-- Witness for C1 at candidate X of scenario A. -/
theorem C1_score_formula_witness :
    calculate_score 3 5 (1/2) 2 1 (.num 2) (.num 4) (.num 300000) (.num 5000) (.num 2000)
      = .ok (some (3 * 2 + 5 * (1 / ((4 : ℚ) + 1)) + (1/2) * (300000 / 100000)
          + 2 * (5000 / 1000) + 1 * (2000 / 1000))) :=
  C1_score_formula.1 3 5 (1/2) 2 1 2 4 300000 5000 2000 (by norm_num)

/-! ## C2 — missing / non-numeric inputs -/

/-- Counterexample to C2 as stated: a candidate record carrying the
non-numeric value `"N/A"` for `home_value` makes the scoring loop of
`process_municipality` raise a `TypeError` past the per-candidate
boundary (aborting the batch), instead of returning "unscoreable":
the inline score computation has no `try`/`except` and only `None`
values are filtered. -/
theorem C2_nonnumeric_raises_cex :
    process_municipality 3 5 (1/2) 2 1
      [⟨.num 1, .num 2, .num 2, .num 4, .str "N/A", .num 5000, .num 2000⟩] []
      = .error .typeError := by
  have h1 : processRecord 3 5 (1/2) 2 1
      ⟨.num 1, .num 2, .num 2, .num 4, .str "N/A", .num 5000, .num 2000⟩
      = .error .typeError := by
    rw [processRecord, if_neg]
    · norm_num [scoreExpr, pyMulFloat, pyAddOne, pyRecip, pyDivConst,
        except_bind_ok, except_bind_error]
    · simp [Record.values]
  simp only [process_municipality, h1]

/-- C2 amended: a candidate with a missing (`null`) required input is
skipped by `process_municipality` — excluded from the output, no default
or zero score, no exception; and `calculate_score` returns `None`
("unscoreable") for any missing or non-numeric required input (provided
the area density is not the numeric value -1, where a `ZeroDivisionError`
would escape instead).  A non-null, non-numeric value reaching the inline
scoring of `process_municipality`, however, raises a `TypeError`. -/
theorem C2_missing_unscoreable :
    (∀ (w1 w2 w3 w4 w5 : ℚ) (r : Record), Val.none ∈ r.values →
      processRecord w1 w2 w3 w4 w5 r = .ok none)
  ∧ (∀ (w1 w2 w3 w4 w5 : ℚ) (d dq hv veh pd : Val),
      (d.isNum = false ∨ dq.isNum = false ∨ hv.isNum = false ∨
       veh.isNum = false ∨ pd.isNum = false) →
      dq ≠ Val.num (-1) →
      calculate_score w1 w2 w3 w4 w5 d dq hv veh pd = .ok none) := by
  constructor
  · intro w1 w2 w3 w4 w5 r h
    simp [processRecord, h]
  · intro w1 w2 w3 w4 w5 d dq hv veh pd hnn hdq
    cases d with
    | none => simp [calculate_score, scoreExpr, pyMulFloat, except_bind_error]
    | str s => simp [calculate_score, scoreExpr, pyMulFloat, except_bind_error]
    | num qd =>
      cases dq with
      | none =>
        simp [calculate_score, scoreExpr, pyMulFloat, pyAddOne,
          except_bind_ok, except_bind_error]
      | str s =>
        simp [calculate_score, scoreExpr, pyMulFloat, pyAddOne,
          except_bind_ok, except_bind_error]
      | num qdq =>
        have h1 : qdq + 1 ≠ 0 := by
          intro h0
          exact hdq (by norm_num [show qdq = -1 by linarith])
        cases hv with
        | none =>
          simp [calculate_score, scoreExpr, pyMulFloat, pyAddOne, pyRecip,
            pyDivConst, except_bind_ok, except_bind_error, h1]
        | str s =>
          simp [calculate_score, scoreExpr, pyMulFloat, pyAddOne, pyRecip,
            pyDivConst, except_bind_ok, except_bind_error, h1]
        | num qhv =>
          cases veh with
          | none =>
            simp [calculate_score, scoreExpr, pyMulFloat, pyAddOne, pyRecip,
              pyDivConst, except_bind_ok, except_bind_error, h1]
          | str s =>
            simp [calculate_score, scoreExpr, pyMulFloat, pyAddOne, pyRecip,
              pyDivConst, except_bind_ok, except_bind_error, h1]
          | num qveh =>
            cases pd with
            | none =>
              simp [calculate_score, scoreExpr, pyMulFloat, pyAddOne, pyRecip,
                pyDivConst, except_bind_ok, except_bind_error, h1]
            | str s =>
              simp [calculate_score, scoreExpr, pyMulFloat, pyAddOne, pyRecip,
                pyDivConst, except_bind_ok, except_bind_error, h1]
            | num qpd => simp [Val.isNum] at hnn

/-- Witness for C2 amended: a record with a `null` distance is skipped, and
`calculate_score` on a string distance returns `None`. -/
theorem C2_missing_unscoreable_witness :
    processRecord 3 5 (1/2) 2 1 ⟨.num 1, .num 2, Val.none, .num 4, .num 3, .num 5, .num 2⟩
      = .ok none
  ∧ calculate_score 3 5 (1/2) 2 1 (.str "x") (.num 4) (.num 1) (.num 1) (.num 1)
      = .ok none :=
  ⟨C2_missing_unscoreable.1 3 5 (1/2) 2 1 _ (by decide),
   C2_missing_unscoreable.2 3 5 (1/2) 2 1 _ _ _ _ _ (by decide) (by decide)⟩

/-! ## C3 — retry policy of the External Feature Fetcher -/

/-- Helper: at most 3 requests are ever issued. -/
theorem fetch_attempts_le (outcomes : ℕ → FetchOutcome) :
    (_fetch_overpass_data outcomes).attempts ≤ 3 := by
  show (fetchLoop outcomes [0, 1, 2] [] 0).attempts ≤ 3
  rcases h0 : outcomes 0 with e0 | els0 <;>
    rcases h1 : outcomes 1 with e1 | els1 <;>
      rcases h2 : outcomes 2 with e2 | els2 <;>
        simp [fetchLoop, h0, h1, h2, max_retries, backoff]

/-- Helper: two failures then a success — waits 2 then 4, then the payload. -/
theorem fetch_two_fail_then_ok (outcomes : ℕ → FetchOutcome)
    (e0 e1 : FetchErr) (els : Option (List Element))
    (h0 : outcomes 0 = .exn e0) (h1 : outcomes 1 = .exn e1)
    (h2 : outcomes 2 = .ok els) :
    _fetch_overpass_data outcomes = ⟨els.getD [], [2, 4], 3⟩ := by
  show fetchLoop outcomes [0, 1, 2] [] 0 = _
  simp [fetchLoop, h0, h1, h2, max_retries, backoff]

/-- Helper: three failures — waits 2 then 4, then the empty element list. -/
theorem fetch_three_fail (outcomes : ℕ → FetchOutcome)
    (e0 e1 e2 : FetchErr)
    (h0 : outcomes 0 = .exn e0) (h1 : outcomes 1 = .exn e1)
    (h2 : outcomes 2 = .exn e2) :
    _fetch_overpass_data outcomes = ⟨[], [2, 4], 3⟩ := by
  show fetchLoop outcomes [0, 1, 2] [] 0 = _
  simp [fetchLoop, h0, h1, h2, max_retries, backoff]

/-- C3: the fetcher makes at most 3 attempts, sleeping 2 time-units after the
first failure and 4 after the second; every failure kind it catches (network
error, non-2xx status via `raise_for_status`, malformed body via `.json()`)
is retried the same way; two failures followed by a success yield the
successful payload, and three failures yield the empty element list — the
function returns a value on every path, it cannot raise. -/
theorem C3_retry_policy :
    (∀ outcomes : ℕ → FetchOutcome, (_fetch_overpass_data outcomes).attempts ≤ 3)
  ∧ (∀ (outcomes : ℕ → FetchOutcome) (e0 e1 : FetchErr) (els : Option (List Element)),
      outcomes 0 = .exn e0 → outcomes 1 = .exn e1 → outcomes 2 = .ok els →
      _fetch_overpass_data outcomes = ⟨els.getD [], [2, 4], 3⟩)
  ∧ (∀ (outcomes : ℕ → FetchOutcome) (e0 e1 e2 : FetchErr),
      outcomes 0 = .exn e0 → outcomes 1 = .exn e1 → outcomes 2 = .exn e2 →
      _fetch_overpass_data outcomes = ⟨[], [2, 4], 3⟩) :=
  ⟨fetch_attempts_le,
   fun o e0 e1 els h0 h1 h2 => fetch_two_fail_then_ok o e0 e1 els h0 h1 h2,
   fun o e0 e1 e2 h0 h1 h2 => fetch_three_fail o e0 e1 e2 h0 h1 h2⟩

/-- Witness for C3: an endpoint that fails with a network error, then a 500
status, then succeeds with payload `[]`, and one that fails three times with
the three retried failure kinds. -/
theorem C3_retry_policy_witness :
    _fetch_overpass_data
        (fun k => if k = 0 then .exn .netError
          else if k = 1 then .exn (.httpStatus 500) else .ok (some []))
      = ⟨[], [2, 4], 3⟩
  ∧ _fetch_overpass_data
        (fun k => if k = 0 then .exn .netError
          else if k = 1 then .exn (.httpStatus 429) else .exn .malformedBody)
      = ⟨[], [2, 4], 3⟩ :=
  ⟨C3_retry_policy.2.1 _ .netError (.httpStatus 500) (some []) rfl rfl rfl,
   C3_retry_policy.2.2 _ .netError (.httpStatus 429) .malformedBody rfl rfl rfl⟩

/-! ## C4 — density computation failure modes -/

/-- Counterexample to C4 as stated: when the fetch fails all 3 attempts, the
density computation does NOT return `(null, null)` — the fetcher degrades to
an empty element list without raising, so the `except` branch is never taken
and the result is `(0, 0)`: station count 0 and density 0. -/
theorem C4_fetch_failure_zero_cex :
    calculate_ev_charging_density (fun l => l)
        (.polygon [(0, 0), (1, 0), (0, 1), (0, 0)])
        (fun _ => .exn .netError) 2000000
      = (some 0, some 0)
  ∧ calculate_ev_charging_density (fun l => l)
        (.polygon [(0, 0), (1, 0), (0, 1), (0, 0)])
        (fun _ => .exn .netError) 2000000
      ≠ ((none : Option ℚ), (none : Option ℚ)) := by
  have hfetch : _fetch_overpass_data (fun _ => (.exn .netError : FetchOutcome))
      = ⟨[], [2, 4], 3⟩ :=
    fetch_three_fail _ .netError .netError .netError rfl rfl rfl
  have h : calculate_ev_charging_density (fun l => l)
      (.polygon [(0, 0), (1, 0), (0, 1), (0, 0)])
      (fun _ => .exn .netError) 2000000 = (some 0, some 0) := by
    rw [calculate_ev_charging_density]
    rw [query_overpass_candidates_inside_pc4_area]
    rw [hfetch]
    norm_num [_prepare_polygon, extractPipeline, _build_node_index,
      buildNodeIndexLoop, _extract_features, extractLoop,
      except_bind_ok, except_bind_error]
  exact ⟨h, by rw [h]; simp⟩

/-- C4 amended: if the fetch underlying the station count fails after all
retries, the density computation returns `(0, 0)` (count 0, density 0) for
any geometry whose polygon preparation succeeds, rather than raising or
returning `(null, null)`; `(null, null)` is returned exactly when an
exception occurs inside the pipeline (a non-polygon geometry, or a
multi-polygon whose convex hull degenerates); and a zero projected area
yields density 0, never a division fault. -/
theorem C4_density_failure_modes :
    (∀ (simplify : List (ℚ × ℚ) → List (ℚ × ℚ)) (outcomes : ℕ → FetchOutcome)
        (projArea : ℚ) (g : Geometry),
      g ≠ .other → g ≠ .multiPolygonDegenerate →
      (∀ k, ∃ e, outcomes k = FetchOutcome.exn e) →
      calculate_ev_charging_density simplify g outcomes projArea = (some 0, some 0))
  ∧ (∀ (simplify : List (ℚ × ℚ) → List (ℚ × ℚ)) (outcomes : ℕ → FetchOutcome)
        (projArea : ℚ) (g : Geometry),
      g = .other ∨ g = .multiPolygonDegenerate →
      calculate_ev_charging_density simplify g outcomes projArea = (none, none))
  ∧ (∀ (simplify : List (ℚ × ℚ) → List (ℚ × ℚ)) (g : Geometry)
        (outcomes : ℕ → FetchOutcome),
      calculate_ev_charging_density simplify g outcomes 0 = (none, none) ∨
      (calculate_ev_charging_density simplify g outcomes 0).2 = some 0) := by
  refine ⟨?_, ?_, ?_⟩
  · intro simplify outcomes projArea g hg hdg hfail
    obtain ⟨e0, h0⟩ := hfail 0
    obtain ⟨e1, h1⟩ := hfail 1
    obtain ⟨e2, h2⟩ := hfail 2
    have hfetch := fetch_three_fail outcomes e0 e1 e2 h0 h1 h2
    rw [calculate_ev_charging_density, query_overpass_candidates_inside_pc4_area,
      hfetch]
    cases g with
    | other => exact absurd rfl hg
    | multiPolygonDegenerate => exact absurd rfl hdg
    | polygon ext =>
      norm_num [_prepare_polygon, extractPipeline, _build_node_index,
        buildNodeIndexLoop, _extract_features, extractLoop,
        except_bind_ok, except_bind_error]
    | multiPolygon hull =>
      norm_num [_prepare_polygon, extractPipeline, _build_node_index,
        buildNodeIndexLoop, _extract_features, extractLoop,
        except_bind_ok, except_bind_error]
  · intro simplify outcomes projArea g hg
    rcases hg with h | h <;> subst h <;>
      simp [calculate_ev_charging_density, query_overpass_candidates_inside_pc4_area,
        _prepare_polygon, except_bind_error]
  · intro simplify g outcomes
    rcases hq : query_overpass_candidates_inside_pc4_area simplify g outcomes with e | feats
    · left
      simp [calculate_ev_charging_density, hq]
    · right
      simp [calculate_ev_charging_density, hq]

/-- Witness for C4 amended: a triangle whose fetch always fails with a
malformed body gives `(0, 0)`; a non-polygon geometry and a degenerate
multi-polygon give `(null, null)`; a polygon with zero projected area gives
density 0. -/
theorem C4_density_failure_modes_witness :
    calculate_ev_charging_density (fun l => l)
        (.polygon [(0, 0), (4, 0), (0, 4), (0, 0)])
        (fun _ => .exn .malformedBody) 5
      = (some 0, some 0)
  ∧ calculate_ev_charging_density (fun l => l) .other
        (fun _ => .ok (some [])) 5
      = (none, none)
  ∧ calculate_ev_charging_density (fun l => l) .multiPolygonDegenerate
        (fun _ => .ok (some [])) 5
      = (none, none)
  ∧ (calculate_ev_charging_density (fun l => l)
        (.polygon [(0, 0), (4, 0), (0, 4), (0, 0)])
        (fun _ => .ok (some [])) 0 = (none, none) ∨
     (calculate_ev_charging_density (fun l => l)
        (.polygon [(0, 0), (4, 0), (0, 4), (0, 0)])
        (fun _ => .ok (some [])) 0).2 = some 0) :=
  ⟨C4_density_failure_modes.1 _ _ 5 _ (by simp) (by simp)
      (fun _ => ⟨.malformedBody, rfl⟩),
   C4_density_failure_modes.2.1 _ _ 5 Geometry.other (Or.inl rfl),
   C4_density_failure_modes.2.1 _ _ 5 Geometry.multiPolygonDegenerate (Or.inr rfl),
   C4_density_failure_modes.2.2 _ _ _⟩

/-! ## C5 — Polygon Encoder error condition -/

/-- Counterexample to C5 as stated, in both directions.  An empty polygon
(shapely `Polygon()`, whose exterior ring has 0 coordinates, hence fewer
than 3 vertices after simplification) does not make `_prepare_polygon`
fail — there is no vertex-count check, and it succeeds with the empty poly
string; likewise `_simplify_polygon_for_ocm` succeeds with an empty
coordinate list.  Conversely a valid multi-polygon input whose convex hull
degenerates (e.g. all parts collinear) DOES fail: `ValueError` at the
post-hull type check of `_simplify_polygon_for_ocm`, `AttributeError` at
`simplified.exterior` in `_prepare_polygon`. -/
theorem C5_no_vertex_check_cex :
    _prepare_polygon (fun l => l) (Geometry.polygon []) = .ok ""
  ∧ _simplify_polygon_for_ocm (fun l => l) (Geometry.polygon []) = .ok []
  ∧ _simplify_polygon_for_ocm (fun l => l) Geometry.multiPolygonDegenerate
      = .error .valueError
  ∧ _prepare_polygon (fun l => l) Geometry.multiPolygonDegenerate
      = .error .attributeError :=
  ⟨rfl, rfl, rfl, rfl⟩

/-- C5 amended: the polygon encoders fail exactly when the input is neither
a single polygon nor a multi-polygon (`ValueError`), or is a multi-polygon
whose convex hull degenerates to a lower-dimensional geometry — where
`_simplify_polygon_for_ocm` raises `ValueError` at its post-hull type check
(ocm_query.py lines 16-17) and `_prepare_polygon` raises `AttributeError` at
`simplified.exterior` (overpass_query.py line 22).  No vertex-count
condition is checked, so a polygonal input succeeds regardless of how few
vertices remain after simplification. -/
theorem C5_invalid_geometry_iff :
    ∀ (simplify : List (ℚ × ℚ) → List (ℚ × ℚ)) (g : Geometry),
      ((∃ e, _prepare_polygon simplify g = .error e)
        ↔ (g = .other ∨ g = .multiPolygonDegenerate))
    ∧ (_prepare_polygon simplify g = .error .valueError ↔ g = .other)
    ∧ (_prepare_polygon simplify g = .error .attributeError
        ↔ g = .multiPolygonDegenerate)
    ∧ ((∃ e, _simplify_polygon_for_ocm simplify g = .error e)
        ↔ (g = .other ∨ g = .multiPolygonDegenerate))
    ∧ (_simplify_polygon_for_ocm simplify g = .error .valueError
        ↔ (g = .other ∨ g = .multiPolygonDegenerate)) := by
  intro simplify g
  cases g <;> simp [_prepare_polygon, _simplify_polygon_for_ocm]

/-! ## C6 — the Feature Extractor on malformed elements -/

/-- Counterexample to C6 as stated: a tagged node element whose `lon` key is
missing makes the extractor raise `KeyError` (in `_build_node_index`, via the
subscript accesses of the dict comprehension, and again in
`_extract_features`) — malformed coordinate fields ARE fatal. -/
theorem C6_malformed_node_raises_cex :
    extractPipeline
        [⟨some "node", some 1, none, some 5, some [("amenity", "charging_station")], none⟩]
      = .error .keyError
  ∧ _extract_features
        [⟨some "node", some 1, none, some 5, some [("amenity", "charging_station")], none⟩] []
      = .error .keyError := by
  constructor
  · simp [extractPipeline, _build_node_index, buildNodeIndexLoop, getField,
      except_bind_ok, except_bind_error]
  · simp [_extract_features, extractLoop, getField,
      except_bind_ok, except_bind_error]

/-- Every element has its `type` key, and node elements also carry `id`,
`lon` and `lat`: the shape under which the extractor's subscript accesses
cannot raise. -/
def coordComplete (el : Element) : Prop :=
  el.type ≠ none ∧
  (el.type = some "node" → el.id ≠ none ∧ el.lon ≠ none ∧ el.lat ≠ none)

/-- Does an `Except` computation succeed? -/
def exceptIsOk {ε α : Type} : Except ε α → Bool
  | .ok _ => true
  | .error _ => false

/-- Helper: the node-index loop never raises on coordinate-complete
elements. -/
theorem buildNodeIndexLoop_ok :
    ∀ (elements : List Element) (idx : NodeIndex),
      (∀ el ∈ elements, coordComplete el) →
      ∃ idx2, buildNodeIndexLoop elements idx = .ok idx2 := by
  intro elements
  induction elements with
  | nil => exact fun idx _ => ⟨idx, rfl⟩
  | cons el rest ih =>
    intro idx h
    have hel := h el (List.mem_cons_self el rest)
    have hrest : ∀ e ∈ rest, coordComplete e :=
      fun e he => h e (List.mem_cons_of_mem el he)
    obtain ⟨ht, hnode⟩ := hel
    rcases hty : el.type with _ | t
    · exact absurd hty ht
    · by_cases htn : t = "node"
      · subst htn
        obtain ⟨hid, hlon, hlat⟩ := hnode hty
        rcases hid2 : el.id with _ | i
        · exact absurd hid2 hid
        rcases hlon2 : el.lon with _ | lo
        · exact absurd hlon2 hlon
        rcases hlat2 : el.lat with _ | la
        · exact absurd hlat2 hlat
        obtain ⟨idx2, hrec⟩ := ih ((i, lo, la) :: idx) hrest
        exact ⟨idx2, by
          simp [buildNodeIndexLoop, hty, hid2, hlon2, hlat2, getField,
            except_bind_ok, hrec]⟩
      · obtain ⟨idx2, hrec⟩ := ih idx hrest
        exact ⟨idx2, by
          simp [buildNodeIndexLoop, hty, getField, htn, except_bind_ok, hrec]⟩

/-- Helper: the extraction loop never raises on coordinate-complete
elements, whatever node references the ways carry. -/
theorem extractLoop_ok :
    ∀ (elements : List Element) (idx : NodeIndex) (feats : List Feature),
      (∀ el ∈ elements, coordComplete el) →
      ∃ out, extractLoop idx elements feats = .ok out := by
  intro elements
  induction elements with
  | nil => exact fun idx feats _ => ⟨feats, rfl⟩
  | cons el rest ih =>
    intro idx feats h
    have hel := h el (List.mem_cons_self el rest)
    have hrest : ∀ e ∈ rest, coordComplete e :=
      fun e he => h e (List.mem_cons_of_mem el he)
    obtain ⟨ht, hnode⟩ := hel
    by_cases htags : el.tags.getD [] = []
    · obtain ⟨out, hrec⟩ := ih idx feats hrest
      exact ⟨out, by simp [extractLoop, htags, hrec]⟩
    · rcases hty : el.type with _ | t
      · exact absurd hty ht
      · by_cases htn : t = "node"
        · subst htn
          obtain ⟨-, hlon, hlat⟩ := hnode hty
          rcases hlon2 : el.lon with _ | lo
          · exact absurd hlon2 hlon
          rcases hlat2 : el.lat with _ | la
          · exact absurd hlat2 hlat
          obtain ⟨out, hrec⟩ :=
            ih idx (feats ++ [⟨el.tags.getD [], (lo, la)⟩]) hrest
          exact ⟨out, by
            simp [extractLoop, htags, hty, hlon2, hlat2, getField,
              except_bind_ok, hrec]⟩
        · by_cases htw : t = "way"
          · subst htw
            by_cases hlen :
                3 ≤ ((el.nodes.getD []).filterMap (lookupNode idx)).length
            · obtain ⟨out, hrec⟩ := ih idx
                (feats ++ [⟨el.tags.getD [],
                  polygonCentroid ((el.nodes.getD []).filterMap (lookupNode idx))⟩])
                hrest
              exact ⟨out, by
                simp [extractLoop, htags, hty, getField, except_bind_ok,
                  hlen, hrec]⟩
            · obtain ⟨out, hrec⟩ := ih idx feats hrest
              exact ⟨out, by
                simp [extractLoop, htags, hty, getField, except_bind_ok,
                  hlen, hrec]⟩
          · obtain ⟨out, hrec⟩ := ih idx feats hrest
            exact ⟨out, by
              simp [extractLoop, htags, hty, getField, htn, htw,
                except_bind_ok, hrec]⟩

/-- C6 amended: the extractor never throws for element lists whose elements
all carry a `type` key and whose node elements carry `id`, `lon` and `lat` —
in particular, way elements referencing unknown or arbitrary node
identifiers never cause an exception, the unresolved references are simply
dropped.  An element missing its `type` key, or a node element missing a
coordinate key, however, raises `KeyError`. -/
theorem C6_wellformed_no_throw :
    ∀ elements : List Element, (∀ el ∈ elements, coordComplete el) →
      exceptIsOk (extractPipeline elements) = true := by
  intro elements h
  obtain ⟨idx, hidx⟩ := buildNodeIndexLoop_ok elements [] h
  obtain ⟨out, hout⟩ := extractLoop_ok elements idx [] h
  simp [extractPipeline, _build_node_index, hidx, except_bind_ok,
    _extract_features, hout, exceptIsOk]

/-- Witness for C6 amended: a well-formed node plus a way whose node list
references the unknown identifiers 7, 8, 9 — no exception is raised. -/
theorem C6_wellformed_no_throw_witness :
    exceptIsOk (extractPipeline
      [⟨some "node", some 1, some 4, some 52, some [("amenity", "parking")], none⟩,
       ⟨some "way", some 2, none, none, some [("amenity", "parking")], some [7, 8, 9]⟩])
      = true :=
  C6_wellformed_no_throw _ (by
    intro el hel
    simp only [List.mem_cons, List.mem_singleton] at hel
    rcases hel with h | h | h
    · subst h
      exact ⟨by simp, fun _ => ⟨by simp, by simp, by simp⟩⟩
    · subst h
      refine ⟨by simp, fun hc => ?_⟩
      simp at hc
    · cases h)

/-! ## C7 — way elements reduce to the centroid of their resolved points -/

/-- C7: a tagged way element resolves its node references through the index
(`filterMap` drops unresolved references silently), is discarded entirely
when fewer than 3 resolved points remain, and otherwise contributes exactly
one feature whose geometry is the centroid of the polygon formed by the
resolved points. -/
theorem C7_way_centroid :
    ∀ (idx : NodeIndex) (ts : List (String × String)) (ns : List ℤ)
      (oid : Option ℤ) (olon olat : Option ℚ), ts ≠ [] →
      (((ns.filterMap (lookupNode idx)).length < 3 →
        _extract_features [⟨some "way", oid, olon, olat, some ts, some ns⟩] idx
          = .ok []) ∧
      (3 ≤ (ns.filterMap (lookupNode idx)).length →
        _extract_features [⟨some "way", oid, olon, olat, some ts, some ns⟩] idx
          = .ok [⟨ts, polygonCentroid (ns.filterMap (lookupNode idx))⟩])) := by
  intro idx ts ns oid olon olat hts
  constructor
  · intro hlen
    simp [_extract_features, extractLoop, hts, getField, except_bind_ok,
      Nat.not_le.mpr hlen]
  · intro hlen
    simp [_extract_features, extractLoop, hts, getField, except_bind_ok, hlen]

/-- Witness for C7: a way referencing nodes 1, 2, 3 and the unknown node 9
over an index holding the triangle (0,0), (2,0), (0,2); the unresolved
reference is dropped and the feature geometry is the triangle centroid
(2/3, 2/3).  A way referencing only node 1 is discarded. -/
theorem C7_way_centroid_witness :
    _extract_features
        [⟨some "way", none, none, none, some [("amenity", "parking")], some [1, 2, 3, 9]⟩]
        [(1, (0, 0)), (2, (2, 0)), (3, (0, 2))]
      = .ok [⟨[("amenity", "parking")], (2/3, 2/3)⟩]
  ∧ _extract_features
        [⟨some "way", none, none, none, some [("amenity", "parking")], some [1, 9]⟩]
        [(1, (0, 0)), (2, (2, 0)), (3, (0, 2))]
      = .ok [] := by
  constructor
  · have hpts : List.filterMap (lookupNode [(1, (0, 0)), (2, (2, 0)), (3, (0, 2))])
        [1, 2, 3, 9] = [(0, 0), (2, 0), (0, 2)] := by decide
    have h := (C7_way_centroid [(1, (0, 0)), (2, (2, 0)), (3, (0, 2))]
      [("amenity", "parking")] [1, 2, 3, 9] none none none (by simp)).2
      (by rw [hpts]; simp)
    rw [hpts] at h
    rw [h]
    norm_num [polygonCentroid, polygonSignedArea2, ringEdges, vertexMean]
  · exact (C7_way_centroid [(1, (0, 0)), (2, (2, 0)), (3, (0, 2))]
      [("amenity", "parking")] [1, 9] none none none (by simp)).1
      (by simp [lookupNode, List.find?])

/-! ## C8 — the progress signal of the batch rescoring run -/

/-- Helper: closed form of the progress loop fold. -/
theorem progressLoop_foldl {α : Type} :
    ∀ (tasks : List α) (t : ℕ) (c : ℕ) (l : List ℚ),
      tasks.foldl (progressStep t) (c, l)
        = (c + tasks.length,
           l ++ (List.range tasks.length).map
             (fun i => ((c + i + 1 : ℕ) : ℚ) / (t : ℚ))) := by
  intro tasks t
  induction tasks with
  | nil => intro c l; simp
  | cons a rest ih =>
    intro c l
    rw [List.foldl_cons]
    show List.foldl (progressStep t) (c + 1, l ++ [((c + 1 : ℕ) : ℚ) / (t : ℚ)]) rest = _
    rw [ih (c + 1) (l ++ [((c + 1 : ℕ) : ℚ) / (t : ℚ)])]
    refine Prod.ext ?_ ?_
    · simp
      omega
    · simp only [List.length_cons, List.range_succ_eq_map, List.map_cons,
        List.map_map, List.append_assoc, List.singleton_append]
      refine congrArg (l ++ ·) (congrArg (_ :: ·) ?_)
      refine List.map_congr_left ?_
      intro i _
      simp only [Function.comp]
      congr 2
      omega

/-- C8: in a run over a nonempty task list (one task per region, each
completing exactly once in `as_completed` order), the counter ends at the
task count, the progress signal is updated once per completed task, the i-th
update has value (i+1)/N — one unit out of N per completion — and an update
equals exactly 1 precisely for the last completion, i.e. only after all N
tasks have completed. -/
theorem C8_progress_signal :
    ∀ (α : Type) (tasks : List α), tasks ≠ [] →
      (progressLoop tasks).1 = tasks.length
    ∧ (progressLoop tasks).2.length = tasks.length
    ∧ ∀ i, i < tasks.length →
        ((progressLoop tasks).2.get? i
            = some (((i + 1 : ℕ) : ℚ) / (tasks.length : ℚ))
        ∧ ((((i + 1 : ℕ) : ℚ) / (tasks.length : ℚ) = 1) ↔ i = tasks.length - 1)) := by
  intro α tasks hne
  have hn : 0 < tasks.length := List.length_pos.mpr hne
  have h := progressLoop_foldl tasks tasks.length 0 []
  have hloop : progressLoop tasks
      = (tasks.length, (List.range tasks.length).map
          (fun i => ((i + 1 : ℕ) : ℚ) / (tasks.length : ℚ))) := by
    rw [progressLoop, h]
    simp
  rw [hloop]
  refine ⟨rfl, by simp, ?_⟩
  intro i hi
  constructor
  · show ((List.range tasks.length).map
        (fun i => ((i + 1 : ℕ) : ℚ) / (tasks.length : ℚ))).get? i = _
    rw [List.get?_map, List.get?_range hi]
    simp
  · have hcast : ((tasks.length : ℚ)) ≠ 0 := by
      exact_mod_cast Nat.pos_iff_ne_zero.mp hn
    rw [div_eq_one_iff_eq hcast]
    constructor
    · intro hq
      have : (i + 1 : ℕ) = tasks.length := by exact_mod_cast hq
      omega
    · intro hq
      have : (i + 1 : ℕ) = tasks.length := by omega
      exact_mod_cast congrArg (fun n : ℕ => (n : ℚ)) this

/-- Witness for C8 on a 3-task run: the third update is exactly 1 and the
first is 1/3. -/
theorem C8_progress_signal_witness :
    (progressLoop ([10, 20, 30] : List ℕ)).2.get? 2
        = some (((2 + 1 : ℕ) : ℚ) / (([10, 20, 30] : List ℕ).length : ℚ))
  ∧ ((((2 + 1 : ℕ) : ℚ) / (([10, 20, 30] : List ℕ).length : ℚ) = 1)
        ↔ (2 : ℕ) = ([10, 20, 30] : List ℕ).length - 1) :=
  (C8_progress_signal ℕ [10, 20, 30] (by simp)).2.2 2 (by simp)

/-! ## C9 — the OCM query raises on non-2xx without retry -/

/-- C9: for non-2xx responses — shown at statuses 404 and 500 — the OCM
charging-point query raises an `Exception` at once: the embedded definition
contains no retry loop and no degradation to an empty result, the error is
returned on the first and only attempt. -/
theorem C9_ocm_non2xx_raises :
    get_charging_points_by_polygon (fun l => l)
        (.polygon [(0, 0), (4, 0), (0, 4), (0, 0)]) ⟨404, []⟩
      = .error .exception
  ∧ get_charging_points_by_polygon (fun l => l)
        (.polygon [(0, 0), (4, 0), (0, 4), (0, 0)]) ⟨500, []⟩
      = .error .exception :=
  ⟨rfl, rfl⟩

/-! ## C10 — zero-coordinate points are excluded -/

/-- C10: whenever the OCM query succeeds, every returned row has latitude
and longitude different from 0, and any flattened row with latitude 0 or
longitude 0 — even one built from a point the upstream service actually
returned — is excluded from the result. -/
theorem C10_zero_coord_filter :
    ∀ (simplify : List (ℚ × ℚ) → List (ℚ × ℚ)) (g : Geometry)
      (resp : OcmResponse) (rows : List OcmRow),
      get_charging_points_by_polygon simplify g resp = .ok rows →
      (∀ r ∈ rows, r.latitude ≠ some 0 ∧ r.longitude ≠ some 0)
    ∧ (∀ r : OcmRow, (r.latitude = some 0 ∨ r.longitude = some 0) → r ∉ rows) := by
  intro simplify g resp rows hok
  have hmem : ∀ r ∈ rows, r.latitude ≠ some 0 ∧ r.longitude ≠ some 0 := by
    intro r hr
    rcases hs : _simplify_polygon_for_ocm simplify g with e | coords
    · rw [get_charging_points_by_polygon, hs, except_bind_error] at hok
      cases hok
    · rw [get_charging_points_by_polygon, hs, except_bind_ok] at hok
      by_cases hst : resp.status_code ≠ 200
      · rw [if_pos hst] at hok
        cases hok
      · rw [if_neg hst] at hok
        by_cases hdat : resp.body.map ocmRow = []
        · rw [if_pos hdat] at hok
          cases hok
          cases hr
        · rw [if_neg hdat] at hok
          cases hok
          have := List.of_mem_filter hr
          have hb := of_decide_eq_true (Bool.and_elim_left this)
          have hb2 := of_decide_eq_true (Bool.and_elim_right this)
          exact ⟨hb, hb2⟩
  refine ⟨hmem, ?_⟩
  intro r hzero hr
  rcases hmem r hr with ⟨h1, h2⟩
  rcases hzero with h | h
  · exact h1 h
  · exact h2 h

/-- Witness for C10: a 200 response containing a point at latitude 0 and a
point at latitude 3 — the zero-latitude row is excluded from the result. -/
theorem C10_zero_coord_filter_witness :
    ocmRow ⟨some 1, some ⟨some "zero", none, none, none, none, some 0, some 5, none⟩,
        none, none⟩
      ∉ [ocmRow ⟨some 2, some ⟨some "good", none, none, none, none, some 3, some 5, none⟩,
        none, none⟩] :=
  (C10_zero_coord_filter (fun l => l) (.polygon [(0, 0), (4, 0), (0, 4), (0, 0)])
      ⟨200, [⟨some 1, some ⟨some "zero", none, none, none, none, some 0, some 5, none⟩,
          none, none⟩,
        ⟨some 2, some ⟨some "good", none, none, none, none, some 3, some 5, none⟩,
          none, none⟩]⟩
      [ocmRow ⟨some 2, some ⟨some "good", none, none, none, none, some 3, some 5, none⟩,
          none, none⟩]
      (by rfl)).2 _ (Or.inl rfl)

end EVCKG
